import Mathlib

/-!
Verification of the update-checker / download-manager core of the
urban-realms-mc-server repository.

Python strings are modelled as lists of characters (`PyStr`), which keeps
every operation structurally recursive and kernel-evaluable.  The model is
scoped to ASCII text: `str.isdigit` is modelled as "non-empty and all ASCII
digits", which coincides with Python on every ASCII string.
-/

/-- Model of a Python `str`: a list of characters. -/
abbrev PyStr := List Char

/-- Coerce a Lean string literal into the model. -/
def pyStr (s : String) : PyStr := s.data

/-- Python truthiness of an optional string: `None` and the empty string are falsy. -/
def pyTruthy : Option PyStr → Bool
  | none => false
  | some s => !s.isEmpty

/-- Python `s.split(sep)[0]`: everything before the first occurrence of `sep`. -/
def takeBefore (sep : Char) (s : PyStr) : PyStr :=
  s.takeWhile (fun c => c ≠ sep)

/-- Python `s.replace(c, '')`: remove every occurrence of the character `c`. -/
def removeAll (c : Char) (s : PyStr) : PyStr :=
  s.filter (fun d => d ≠ c)

/-- Python `s.split(sep)` for a one-character separator. -/
def splitOnChar (sep : Char) : PyStr → List PyStr
  | [] => [[]]
  | c :: cs =>
    match splitOnChar sep cs with
    | [] => [[]]
    | g :: gs => if c = sep then [] :: g :: gs else (c :: g) :: gs

/-- Python `s.isdigit()` restricted to ASCII: non-empty and all decimal digits. -/
def isDigits (s : PyStr) : Bool :=
  !s.isEmpty && s.all (fun c => decide ('0' ≤ c) && decide (c ≤ '9'))

/-- Python `int(s)` on a string of decimal digits. -/
def digitsVal (s : PyStr) : Nat :=
  s.foldl (fun n c => 10 * n + (c.toNat - 48)) 0

/-- Decimal digits of a natural number, with explicit fuel (`str(n)` in Python). -/
def natDigitsAux : Nat → Nat → PyStr
  | 0, _ => []
  | fuel + 1, n =>
    if n < 10 then [Char.ofNat (48 + n)]
    else natDigitsAux fuel (n / 10) ++ [Char.ofNat (48 + n % 10)]

/-- Python `str(n)` for a natural number. -/
def natDigits (n : Nat) : PyStr := natDigitsAux (n + 1) n

/-- Python string `<` comparison: lexicographic by character code point. -/
def lexLt : PyStr → PyStr → Bool
  | [], [] => false
  | [], _ :: _ => true
  | _ :: _, [] => false
  | x :: xs, y :: ys =>
    if x.toNat < y.toNat then true
    else if y.toNat < x.toNat then false
    else lexLt xs ys

/-!
## Version Comparator

Embedding of `UpdateChecker._compare_versions` (src/bin/check_updates.py,
lines 217-252).  A version segment is an `int` when fully numeric, otherwise
kept as a string.  Segment parsing is total in this ASCII model, so the
`except` fallback of the Python (reachable only through exotic non-ASCII
digit characters) is unreachable and not modelled.
-/

/-- One dot-separated segment of a cleaned version string: Python keeps an
`int` when the segment is fully numeric, else the raw string. -/
inductive Seg where
  | num (n : Nat)
  | str (s : PyStr)
deriving DecidableEq, Repr

/-- `int(x) if x.isdigit() else x` for one segment. -/
def parseSeg (s : PyStr) : Seg :=
  if isDigits s then .num (digitsVal s) else .str s

/-- `str(p)` applied to a parsed segment. -/
def segStr : Seg → PyStr
  | .num n => natDigits n
  | .str s => s

/-- The cleaned, parsed segment list built on lines 224-228:
`v.split('+')[0].split('-')[0].replace('v','').split('.')`, each segment
parsed as `int` when fully numeric.  Note the source removes EVERY
occurrence of the character `v`, not only a leading one. -/
def versionSegs (v : PyStr) : List Seg :=
  (splitOnChar '.' (removeAll 'v' (takeBefore '-' (takeBefore '+' v)))).map parseSeg

/-- Element-wise comparison of two segments (lines 234-243): numeric order
when both are ints, otherwise Python string order on `str(p1)` vs `str(p2)`. -/
def cmpSeg : Seg → Seg → Int
  | .num a, .num b => if a > b then 1 else if a < b then -1 else 0
  | p, q =>
    if lexLt (segStr q) (segStr p) then 1
    else if lexLt (segStr p) (segStr q) then -1
    else 0

/-- The tail of the comparison loop once the left list is exhausted: the
left side is padded with numeric `0` against each remaining right segment. -/
def compareSegsNil : List Seg → Int
  | [] => 0
  | y :: ys =>
    let c := cmpSeg (.num 0) y
    if c = 0 then compareSegsNil ys else c

/-- The comparison loop of lines 230-245: walk both segment lists in step,
padding the shorter one with numeric `0`, returning the first non-zero
element comparison. -/
def compareSegs : List Seg → List Seg → Int
  | [], ys => compareSegsNil ys
  | x :: xs, [] =>
    let c := cmpSeg x (.num 0)
    if c = 0 then compareSegs xs [] else c
  | x :: xs, y :: ys =>
    let c := cmpSeg x y
    if c = 0 then compareSegs xs ys else c

/-- `UpdateChecker._compare_versions(v1, v2)`: 1 when `v1 > v2`, -1 when
`v1 < v2`, 0 when equal. -/
def compare_versions (v1 v2 : PyStr) : Int :=
  compareSegs (versionSegs v1) (versionSegs v2)

/-!
## Spec-side comparator definitions

Two definitions written from the words of spec section 4.1 ("strip
build-metadata suffix after the first `+`, then strip pre-release suffix
after the first `-`; strip a leading `v`; split remaining on `.`; ... pad the
shorter sequence with numeric-zero segments; compare element-wise; the first
differing segment decides"), used to compare the specified algorithm with
the implemented one.  `specCompareLeadingV` follows the spec literally
(leading `v` only); `specCompareAllV` is the amended variant in which every
`v` character is removed, as the source does.
-/

/-- Spec section 4.1, literally: strip a single leading `v` only. -/
def stripLeadingV : PyStr → PyStr
  | 'v' :: rest => rest
  | s => s

/-- Segment list per the spec wording, with the literal leading-`v` rule. -/
def specSegmentsLeadingV (v : PyStr) : List Seg :=
  (splitOnChar '.' (stripLeadingV (takeBefore '-' (takeBefore '+' v)))).map parseSeg

/-- Segment list per the spec wording, amended to remove every `v`. -/
def specSegmentsAllV (v : PyStr) : List Seg :=
  (splitOnChar '.' (removeAll 'v' (takeBefore '-' (takeBefore '+' v)))).map parseSeg

/-- Pad a segment list on the right with numeric zeros up to length `n`. -/
def padTo (n : Nat) (ps : List Seg) : List Seg :=
  ps ++ List.replicate (n - ps.length) (Seg.num 0)

/-- First non-zero entry of a list of comparison outcomes, else 0. -/
def firstNonZero : List Int → Int
  | [] => 0
  | c :: cs => if c = 0 then firstNonZero cs else c

/-- Spec-style comparison core: pad both lists to equal length, compare
element-wise, first difference decides. -/
def specComparePadded (xs ys : List Seg) : Int :=
  let n := max xs.length ys.length
  firstNonZero (List.zipWith cmpSeg (padTo n xs) (padTo n ys))

/-- Map the integer comparison outcome onto the spec's three-valued result. -/
def ordOfInt (i : Int) : Ordering :=
  if i > 0 then .gt else if i < 0 then .lt else .eq

/-- `compare(a, b)` as specified in spec section 4.1, literal leading-`v` rule. -/
def specCompareLeadingV (a b : PyStr) : Ordering :=
  ordOfInt (specComparePadded (specSegmentsLeadingV a) (specSegmentsLeadingV b))

/-- `compare(a, b)` as specified in spec section 4.1, amended to remove all `v`s. -/
def specCompareAllV (a b : PyStr) : Ordering :=
  ordOfInt (specComparePadded (specSegmentsAllV a) (specSegmentsAllV b))

/-!
## Compatibility Resolver

Embedding of `UpdateChecker.find_compatible_updates` and
`UpdateChecker.check_full_compatibility` (src/bin/check_updates.py, lines
254-415).  Remote registry responses are modelled as explicit parameters:
`Manifest` is the already-fetched engine version manifest, `loaderData`
gives the parsed loader-registry response per engine version, and
`Registry` gives the mod-registry responses used by
`check_full_compatibility`.  The resolver is additionally parameterised
over the outcome function of `self.check_full_compatibility`, since each
(engine, loader) attempt issues fresh registry calls in the source.
-/

/-- One element of the loader-registry response: the value of
`item.get('loader', dict()).get('version')` (lines 356-358). -/
structure LoaderItem where
  version : Option PyStr
deriving DecidableEq, Repr

/-- Extract the loader version strings (lines 355-360): keep each item's
version when it is truthy, in response order. -/
def extractLoaderVersions (ld : List LoaderItem) : List PyStr :=
  ld.filterMap fun item =>
    match item.version with
    | none => none
    | some v => if v.isEmpty then none else some v

/-- One version entry of the mod-registry response as consumed by
`check_full_compatibility`: `version_number` plus the url extracted by
`latest.get('files', [dict()])[0].get('url', 'N/A')` (line 292); the model
folds that first-file access into a single total field. -/
structure ModVersionEntry where
  version_number : Option PyStr
  url : PyStr
deriving DecidableEq, Repr

/-- A configured mod as read by the update checker: only `mod.get('name')`
is consulted by `check_full_compatibility` (line 266). -/
structure ModCfgU where
  name : Option PyStr
deriving DecidableEq, Repr

/-- The value stored in `mod_details[mod_name]` (lines 290-294). -/
structure ModDetail where
  version : PyStr
  url : PyStr
  project_id : PyStr
deriving DecidableEq, Repr

/-- Mod-registry responses: `_search_modrinth_project` (name to project id)
and `_get_mod_versions` (project id and MC version to version entries; the
loader query parameter is the constant "fabric" at the call on line 277). -/
structure Registry where
  searchProject : PyStr → Option PyStr
  modVersions : PyStr → PyStr → List ModVersionEntry

/-- Loop body of `check_full_compatibility` for one configured mod (lines
265-294), threading the `(mod_details, missing_mods)` accumulator. -/
def cfcStep (reg : Registry) (mc_version : PyStr)
    (acc : List (PyStr × ModDetail) × List PyStr) (mod : ModCfgU) :
    List (PyStr × ModDetail) × List PyStr :=
  match mod.name with
  | none => acc
  | some mod_name =>
    if mod_name.isEmpty then acc
    else
      match reg.searchProject mod_name with
      | none => (acc.1, acc.2 ++ [mod_name])
      | some project_id =>
        if project_id.isEmpty then (acc.1, acc.2 ++ [mod_name])
        else
          match reg.modVersions project_id mc_version with
          | [] => (acc.1, acc.2 ++ [mod_name])
          | latest :: _ =>
            match latest.version_number with
            | none => (acc.1, acc.2 ++ [mod_name])
            | some latest_version =>
              if latest_version.isEmpty then (acc.1, acc.2 ++ [mod_name])
              else
                (acc.1 ++ [(mod_name,
                   { version := latest_version, url := latest.url,
                     project_id := project_id })], acc.2)

/-- `UpdateChecker.check_full_compatibility(mc_version, fabric_version)`
(lines 254-297): returns `(all_compatible, mod_details, missing_mods)`.
The `fabric_version` argument is carried exactly as in the source, whose
body never reads it (mod versions are queried per MC version only). -/
def check_full_compatibility (reg : Registry) (mods : List ModCfgU)
    (mc_version fabric_version : PyStr) :
    Bool × List (PyStr × ModDetail) × List PyStr :=
  let acc := mods.foldl (cfcStep reg mc_version) ([], [])
  (acc.2.isEmpty, acc.1, acc.2)

/-- The value returned on success by `find_compatible_updates` (lines
385-399), restricted to the fields with algorithmic content: the chosen
engine version, loader version, and the resolved mod details.  (The
`current_version` echoes and the `tested_versions` counters are omitted.) -/
structure UpdateResult where
  mc_new : PyStr
  fabric_new : PyStr
  mods : List (PyStr × ModDetail)
deriving DecidableEq, Repr

/-- The inner loader loop (lines 370-403): test each Fabric candidate in
order with `check_full_compatibility`; return on the first compatible one,
otherwise fall through. -/
def tryLoaders
    (checkFull : PyStr → PyStr → Bool × List (PyStr × ModDetail) × List PyStr)
    (mc_ver : PyStr) : List PyStr → Option UpdateResult
  | [] => none
  | fabric_ver :: rest =>
    if (checkFull mc_ver fabric_ver).1 then
      some ⟨mc_ver, fabric_ver, (checkFull mc_ver fabric_ver).2.1⟩
    else tryLoaders checkFull mc_ver rest

/-- One entry of the engine manifest's `versions` list. -/
structure VersionEntry where
  id : PyStr
  type : PyStr
deriving DecidableEq, Repr

/-- The engine version manifest, as consumed (only `versions` is walked by
the resolver). -/
structure Manifest where
  versions : List VersionEntry
deriving DecidableEq, Repr

/-- Derivation of the newer-release candidate list (lines 326-331): walk
the manifest in order, collecting release ids, stopping at the current
version. -/
def newerReleases (current : PyStr) : List VersionEntry → List PyStr
  | [] => []
  | v :: vs =>
    if v.id = current then []
    else if v.type = pyStr "release" then v.id :: newerReleases current vs
    else newerReleases current vs

/-- The engine loop of `find_compatible_updates` (lines 341-408).  The
second component records, in order, the engine versions for which a
loader-registry fetch was issued (line 347).  Every path through the loop
body ends in `break` (lines 352, 365, 408) or `return` (line 385), which
the translation mirrors: no branch recurses into the remaining candidates. -/
def engineLoop (loaderData : PyStr → Option (List LoaderItem))
    (checkFull : PyStr → PyStr → Bool × List (PyStr × ModDetail) × List PyStr) :
    List PyStr → Option UpdateResult × List PyStr
  | [] => (none, [])
  | mc_ver :: _rest =>
    match loaderData mc_ver with
    | none => (none, [mc_ver])
    | some loader_data =>
      if loader_data.isEmpty then (none, [mc_ver])
      else
        let fabric_versions := extractLoaderVersions loader_data
        if fabric_versions.isEmpty then (none, [mc_ver])
        else
          match tryLoaders checkFull mc_ver fabric_versions with
          | some r => (some r, [mc_ver])
          | none => (none, [mc_ver])

/-- `UpdateChecker.find_compatible_updates` (lines 299-415): `manifest` is
the fetched engine manifest (`none` models a failed fetch, line 317), and
the result is paired with the trace of engine versions whose loader
candidates were fetched. -/
def find_compatible_updates (loaderData : PyStr → Option (List LoaderItem))
    (checkFull : PyStr → PyStr → Bool × List (PyStr × ModDetail) × List PyStr)
    (manifest : Option Manifest) (mc_version : PyStr) :
    Option UpdateResult × List PyStr :=
  match manifest with
  | none => (none, [])
  | some m => engineLoop loaderData checkFull (newerReleases mc_version m.versions)

/-!
## Registry fetch

Embedding of `_fetch_json` (src/bin/check_updates.py lines 45-62 and
src/bin/download.py lines 80-97, identical control flow).  The remote
interaction is modelled by an explicit response value; the function returns
the Python return value together with the list of error lines printed.
-/

/-- The possible outcomes of one HTTP fetch: a successful, parsed body; an
HTTP error status; or any other exception (timeout, connection failure,
malformed JSON payload, ...). -/
inductive FetchResponse (α : Type) where
  | success (data : α)
  | httpError (code : Nat)
  | failure (msg : PyStr)
deriving DecidableEq, Repr

/-- `_fetch_json(url)`: returns `(return value, printed error lines)`.  A
404 returns `None` with no output; any other HTTP error prints and returns
`None`; any other exception prints and returns `None`. -/
def fetch_json (α : Type) (url : PyStr) : FetchResponse α → Option α × List PyStr
  | .success d => (some d, [])
  | .httpError code =>
    if code = 404 then (none, [])
    else (none, [pyStr "  Error: HTTP " ++ natDigits code ++ pyStr " when fetching " ++ url])
  | .failure msg => (none, [pyStr "  Error fetching " ++ url ++ pyStr ": " ++ msg])

/-!
## Download / cache orchestrator

Embedding of `DownloadManager` (src/bin/download.py): the per-mod plan
construction of `build_download_list` (lines 323-391), the per-item
processing of `download_all` (lines 412-466), and `_download_file`
(lines 99-121).  The filesystem is modelled by an existence predicate; the
registry-backed URL resolvers, which are network calls, are explicit
function parameters.
-/

/-- `os.path.join` for the POSIX path shapes used by the manager. -/
def pathJoin (a b : PyStr) : PyStr :=
  if a.isEmpty then b else a ++ ('/' :: b)

/-- A configured mod as read by `build_download_list` (lines 328-332) and
`_resolve_custom_url` (lines 196-207). -/
structure ModConfig where
  name : Option PyStr
  version : Option PyStr
  source : Option PyStr
  slug : Option PyStr
  environment : Option PyStr
  project_id : Option Nat
  file_id : Option Nat
  download_url : Option PyStr
deriving DecidableEq, Repr

/-- `_resolve_custom_url(mod_config)` (lines 196-207): the declared URL is
authoritative; the filename is the URL's last path segment with any query
stripped, replaced by `<name>.jar` when it does not end in `.jar`. -/
def resolve_custom_url (mod : ModConfig) : Option (PyStr × PyStr) :=
  match mod.download_url with
  | none => none
  | some download_url =>
    if download_url.isEmpty then none
    else
      let filename := takeBefore '?' ((splitOnChar '/' download_url).getLastD [])
      let filename :=
        if (pyStr ".jar").isSuffixOf filename then filename
        else (mod.name.getD (pyStr "mod")) ++ pyStr ".jar"
      some (download_url, filename)

/-- The registry-backed URL resolvers as seen from `build_download_list`:
the outcomes of `_resolve_modrinth_url(mod_name, version, slug)` (url,
filename, resolved slug) and `_resolve_curseforge_url(mod_name, version,
project_id, file_id)` (url, filename). -/
structure ModResolveEnv where
  modrinth : Option PyStr → PyStr → Option PyStr → Option (PyStr × PyStr × PyStr)
  curseforge : Option PyStr → PyStr → Nat → Option Nat → Option (PyStr × PyStr)

/-- The per-source dispatch of lines 341-362, producing
`(url, filename, resolved_slug)` when the mod resolves.  A `curseforge`
mod without a truthy `project_id` is skipped (lines 350-360); an unknown
source leaves the result unset and the mod is skipped (line 390). -/
def buildResolve (env : ModResolveEnv) (mod : ModConfig) (version : PyStr) :
    Option (PyStr × PyStr × Option PyStr) :=
  if mod.source.getD (pyStr "modrinth") = pyStr "modrinth" then
    match env.modrinth mod.name version mod.slug with
    | some (url, filename, resolved_slug) => some (url, filename, some resolved_slug)
    | none => none
  else if mod.source.getD (pyStr "modrinth") = pyStr "curseforge" then
    match mod.project_id with
    | none => none
    | some project_id =>
      if project_id = 0 then none
      else
        match env.curseforge mod.name version project_id mod.file_id with
        | some (url, filename) =>
          some (url, filename, some (pyStr "cf_" ++ natDigits project_id))
        | none => none
  else if mod.source.getD (pyStr "modrinth") = pyStr "custom" then
    match resolve_custom_url mod with
    | some (url, filename) => some (url, filename, none)
    | none => none
  else none

/-- One entry of the download plan.  Non-mod entries (minecraft, fabric)
carry a single `destination` and no `destinations` key; mod entries carry
the `destinations` list (and no `destination`), which `Option` makes
explicit. -/
structure PlanItem where
  type : PyStr
  name : Option PyStr
  version : PyStr
  url : PyStr
  filename : PyStr
  target_dir : PyStr
  environment : Option PyStr
  destination : Option PyStr
  destinations : Option (List PyStr)
  slug : Option PyStr
deriving DecidableEq, Repr

/-- The destination expansion of lines 369-374: a server path for
`server`/`both`, then a client-subdirectory path for `client`/`both`. -/
def modDestinations (base_target_dir filename environment : PyStr) : List PyStr :=
  (if environment = pyStr "server" ∨ environment = pyStr "both"
   then [pathJoin base_target_dir filename] else [])
  ++ (if environment = pyStr "client" ∨ environment = pyStr "both"
      then [pathJoin (pathJoin base_target_dir (pyStr "client")) filename] else [])

/-- The plan entry stored at `downloads['mod_<name>']` (lines 376-386). -/
def mkModItem (targetDirOf : PyStr → PyStr) (mod : ModConfig)
    (version url filename : PyStr) (resolved_slug : Option PyStr) : PlanItem :=
  let source := mod.source.getD (pyStr "modrinth")
  let environment := mod.environment.getD (pyStr "both")
  { type := pyStr "mod"
    name := mod.name
    version := version
    url := url
    filename := filename
    target_dir := targetDirOf source
    environment := some environment
    destination := none
    destinations := some (modDestinations (targetDirOf source) filename environment)
    slug := resolved_slug }

/-- The per-mod plan construction of `build_download_list` (lines 327-390):
`none` when the mod is skipped (missing version, missing project id, or
failed resolution), otherwise the produced plan entry.  `targetDirOf`
models the `self.mappings['sources'][source]['target_dir']` lookup. -/
def buildModEntry (env : ModResolveEnv) (targetDirOf : PyStr → PyStr)
    (mod : ModConfig) : Option PlanItem :=
  match mod.version with
  | none => none
  | some version =>
    if version.isEmpty then none
    else
      match buildResolve env mod version with
      | none => none
      | some (url, filename, resolved_slug) =>
        some (mkModItem targetDirOf mod version url filename resolved_slug)

/-- Observable filesystem effects of processing one plan item. -/
inductive FsAction where
  | removeOld (path : PyStr)
  | download (url : PyStr) (dest : PyStr)
  | copy (src : PyStr) (dest : PyStr)
  | skipExists (dest : PyStr)
deriving DecidableEq, Repr

/-- The environment of one `download_all` run: which destination paths
exist when the item loop reaches them, and whether `_download_file`
succeeds for a given url and destination. -/
structure FsEnv where
  fileExists : PyStr → Bool
  downloadOk : PyStr → PyStr → Bool

/-- Processing of a single plan item inside `download_all` (lines 412-466):
returns the list of filesystem actions and whether the item counted as a
success, or an error for the unguarded `destinations[0]` access on line 433
when a mod entry has an empty destinations list.  Mod entries (type `mod`
with a `destinations` key) first remove existing files from every
destination when a slug is recorded, then always download to the first
destination and copy to the rest; only non-mod entries are skipped when
their destination already exists (lines 455-460). -/
def processItem (fs : FsEnv) (item : PlanItem) : Except PyStr (List FsAction × Bool) :=
  if item.type = pyStr "mod" ∧ item.destinations.isSome then
    let destinations := item.destinations.getD []
    let removals :=
      match item.slug with
      | none => []
      | some s =>
        if s.isEmpty then []
        else (destinations.filter fs.fileExists).map FsAction.removeOld
    match destinations with
    | [] => Except.error (pyStr "IndexError: list index out of range")
    | first_dest :: rest =>
      if fs.downloadOk item.url first_dest then
        Except.ok (removals ++ FsAction.download item.url first_dest ::
          rest.map (FsAction.copy first_dest), true)
      else
        Except.ok (removals ++ [FsAction.download item.url first_dest], false)
  else
    match item.destination with
    | none => Except.ok ([], false)
    | some destination =>
      if destination.isEmpty then Except.ok ([], false)
      else if fs.fileExists destination then
        Except.ok ([FsAction.skipExists destination], true)
      else if fs.downloadOk item.url destination then
        Except.ok ([FsAction.download item.url destination], true)
      else
        Except.ok ([FsAction.download item.url destination], false)

/-- Outcome of the transfer attempted by `_download_file`: success, or an
exception raised after the destination file was created (a partial write),
or before any file was created. -/
inductive TransferOutcome where
  | ok
  | failAfterWrite
  | failBeforeWrite
deriving DecidableEq, Repr

/-- `_download_file(url, destination)` (lines 99-121) as a transformation
of the filesystem existence map: on success the destination exists; on any
failure the `except` handler removes the destination file when it exists
(lines 119-120) before returning `False`. -/
def download_file (t : TransferOutcome) (fs : PyStr → Bool) (destination : PyStr) :
    Bool × (PyStr → Bool) :=
  match t with
  | .ok => (true, fun p => if p = destination then true else fs p)
  | .failAfterWrite =>
    let fs1 : PyStr → Bool := fun p => if p = destination then true else fs p
    (false, if fs1 destination then (fun p => if p = destination then false else fs1 p) else fs1)
  | .failBeforeWrite =>
    (false, if fs destination then (fun p => if p = destination then false else fs p) else fs)

/-!
## Concrete evaluation fixtures

Small concrete registries, manifests, configurations and filesystem
environments used to evaluate the definitions on explicit inputs.
-/

/-- Engine manifest with two releases newer than `1.21.0`. -/
def c1Manifest : Manifest :=
  ⟨[⟨pyStr "1.21.2", pyStr "release"⟩, ⟨pyStr "1.21.1", pyStr "release"⟩,
    ⟨pyStr "1.21.0", pyStr "release"⟩]⟩

/-- Loader registry answering every engine version with an empty list. -/
def c1Loaders : PyStr → Option (List LoaderItem) := fun _ => some []

/-- Compatibility outcomes that never succeed. -/
def c1Check : PyStr → PyStr → Bool × List (PyStr × ModDetail) × List PyStr :=
  fun _ _ => (false, [], [])

/-- Engine manifest with one release newer than `1.21.0`. -/
def c2Manifest : Manifest :=
  ⟨[⟨pyStr "1.21.1", pyStr "release"⟩, ⟨pyStr "1.21.0", pyStr "release"⟩]⟩

/-- Loader registry answering with two loader candidates. -/
def c2Loaders : PyStr → Option (List LoaderItem) :=
  fun _ => some [⟨some (pyStr "0.16.10")⟩, ⟨some (pyStr "0.16.9")⟩]

/-- Compatibility outcomes: the newest loader misses a mod, the older one
resolves everything. -/
def c2Check : PyStr → PyStr → Bool × List (PyStr × ModDetail) × List PyStr :=
  fun _ l =>
    if l = pyStr "0.16.10" then (false, [], [pyStr "sodium"])
    else (true, [(pyStr "sodium", ⟨pyStr "5.0", pyStr "https u", pyStr "AANobbMI"⟩)], [])

/-- Mod registry resolving exactly the mod `sodium`. -/
def c3Reg : Registry :=
  ⟨fun n => if n = pyStr "sodium" then some (pyStr "AANobbMI") else none,
   fun pid _ => if pid = pyStr "AANobbMI"
     then [⟨some (pyStr "5.0"), pyStr "https u"⟩] else []⟩

/-- A single configured mod named `sodium`. -/
def c3Mods : List ModCfgU := [⟨some (pyStr "sodium")⟩]

/-- Engine manifest with one release newer than `1.21.0`. -/
def c3Manifest : Manifest :=
  ⟨[⟨pyStr "1.21.1", pyStr "release"⟩, ⟨pyStr "1.21.0", pyStr "release"⟩]⟩

/-- Loader registry answering with one loader candidate. -/
def c3Loaders : PyStr → Option (List LoaderItem) :=
  fun _ => some [⟨some (pyStr "0.16.9")⟩]

/-- The result the resolver produces on the `c3` fixtures. -/
def c3Result : UpdateResult :=
  ⟨pyStr "1.21.1", pyStr "0.16.9",
   [(pyStr "sodium", ⟨pyStr "5.0", pyStr "https u", pyStr "AANobbMI"⟩)]⟩

/-- Filesystem on which every path exists and every download succeeds. -/
def c7Fs : FsEnv := ⟨fun _ => true, fun _ _ => true⟩

/-- A mod plan entry whose destinations both already exist on `c7Fs`. -/
def c7ModItem : PlanItem :=
  { type := pyStr "mod", name := some (pyStr "sodium"), version := pyStr "5.0",
    url := pyStr "https u", filename := pyStr "sodium.jar",
    target_dir := pyStr "mods", environment := some (pyStr "both"),
    destination := none,
    destinations := some [pyStr "mods/sodium.jar", pyStr "mods/client/sodium.jar"],
    slug := some (pyStr "sodium") }

/-- A non-mod (engine) plan entry whose destination already exists on `c7Fs`. -/
def c7EngineItem : PlanItem :=
  { type := pyStr "minecraft", name := some (pyStr "Minecraft Server"),
    version := pyStr "1.21.0", url := pyStr "https m",
    filename := pyStr "server.jar", target_dir := pyStr ".",
    environment := none, destination := some (pyStr "./server.jar"),
    destinations := none, slug := none }

/-- Filesystem existence map on which no path exists. -/
def c8Fs : PyStr → Bool := fun _ => false

/-- Modrinth resolver answering every query with a fixed artifact. -/
def c9Env : ModResolveEnv :=
  ⟨fun _ _ _ => some (pyStr "https u", pyStr "sodium.jar", pyStr "sodium"),
   fun _ _ _ _ => none⟩

/-- Target directory mapping sending every source to `mods`. -/
def c9Tgt : PyStr → PyStr := fun _ => pyStr "mods"

/-- A configured mod with `environment: both`. -/
def c9Mod : ModConfig :=
  ⟨some (pyStr "sodium"), some (pyStr "5.0"), none, none,
   some (pyStr "both"), none, none, none⟩

/-- The plan entry built from `c9Mod`. -/
def c9Item : PlanItem :=
  mkModItem c9Tgt c9Mod (pyStr "5.0") (pyStr "https u") (pyStr "sodium.jar")
    (some (pyStr "sodium"))

/-- A configured mod with an unrecognized `environment` value. -/
def c10Mod : ModConfig :=
  ⟨some (pyStr "sodium"), some (pyStr "5.0"), none, none,
   some (pyStr "weird"), none, none, none⟩

/-- The plan entry built from `c10Mod`: its destinations list is empty. -/
def c10Item : PlanItem :=
  mkModItem c9Tgt c10Mod (pyStr "5.0") (pyStr "https u") (pyStr "sodium.jar")
    (some (pyStr "sodium"))

/-- Filesystem on which no path exists and every download succeeds. -/
def c10Fs : FsEnv := ⟨fun _ => false, fun _ _ => true⟩

/-- Projection of a processed item onto its action list. -/
def itemActions (r : Except PyStr (List FsAction × Bool)) : List FsAction :=
  match r with
  | .error _ => []
  | .ok (acts, _) => acts

/-!
## Lemmas about the version comparator
-/

/-- Python string comparison is irreflexive. -/
theorem lexLt_irrefl (s : PyStr) : lexLt s s = false := by
  induction s with
  | nil => rfl
  | cons x xs ih => simp [lexLt, ih]

/-- Python string comparison is asymmetric. -/
theorem lexLt_asymm {s t : PyStr} (h : lexLt s t = true) : lexLt t s = false := by
  induction s generalizing t with
  | nil =>
    cases t with
    | nil => simp [lexLt] at h
    | cons y ys => simp [lexLt]
  | cons x xs ih =>
    cases t with
    | nil => simp [lexLt] at h
    | cons y ys =>
      simp only [lexLt] at h ⊢
      rcases Nat.lt_trichotomy x.toNat y.toNat with hlt | heq | hgt
      · simp [Nat.lt_asymm hlt, Nat.not_lt_of_lt hlt] at h ⊢
        omega
      · rw [heq] at h ⊢
        simp only [Nat.lt_irrefl, if_false] at h ⊢
        exact ih h
      · simp [hgt, Nat.lt_asymm hgt] at h

/-- A segment compares equal to itself. -/
theorem cmpSeg_self (p : Seg) : cmpSeg p p = 0 := by
  cases p with
  | num n => simp [cmpSeg]
  | str s => simp [cmpSeg, lexLt_irrefl]

/-- Antisymmetry of the string-order arm of the segment comparison. -/
theorem strCmp_antisymm (s t : PyStr) :
    (if lexLt t s then (1 : Int) else if lexLt s t then -1 else 0)
      = -(if lexLt s t then (1 : Int) else if lexLt t s then -1 else 0) := by
  cases hst : lexLt s t with
  | true => simp [lexLt_asymm hst, hst]
  | false =>
    cases hts : lexLt t s with
    | true => simp [hst, hts]
    | false => simp [hst, hts]

/-- Swapping the two segments negates the element comparison. -/
theorem cmpSeg_antisymm (p q : Seg) : cmpSeg p q = -cmpSeg q p := by
  cases p with
  | num a =>
    cases q with
    | num b => simp only [cmpSeg]; split_ifs <;> omega
    | str s => simpa only [cmpSeg] using strCmp_antisymm (segStr (.num a)) (segStr (.str s))
  | str s =>
    cases q with
    | num b => simpa only [cmpSeg] using strCmp_antisymm (segStr (.str s)) (segStr (.num b))
    | str t => simpa only [cmpSeg] using strCmp_antisymm (segStr (.str s)) (segStr (.str t))

/-- The comparison loop is reflexive. -/
theorem compareSegs_self (xs : List Seg) : compareSegs xs xs = 0 := by
  induction xs with
  | nil => rfl
  | cons x xs ih => simp [compareSegs, cmpSeg_self, ih]

/-- Exhausted-left tail versus the swapped loop. -/
theorem compareSegsNil_neg (ys : List Seg) : compareSegsNil ys = -compareSegs ys [] := by
  induction ys with
  | nil => simp [compareSegsNil, compareSegs]
  | cons y ys ih =>
    simp only [compareSegsNil, compareSegs]
    have h := cmpSeg_antisymm (Seg.num 0) y
    by_cases hc : cmpSeg (Seg.num 0) y = 0
    · have hc' : cmpSeg y (Seg.num 0) = 0 := by omega
      simp [hc, hc', ih]
    · have hc' : ¬cmpSeg y (Seg.num 0) = 0 := by omega
      simp [hc, hc', h]

/-- Swapping the two lists negates the loop's comparison. -/
theorem compareSegs_antisymm (xs ys : List Seg) : compareSegs xs ys = -compareSegs ys xs := by
  induction xs generalizing ys with
  | nil =>
    show compareSegsNil ys = -compareSegs ys []
    exact compareSegsNil_neg ys
  | cons x xs ih =>
    cases ys with
    | nil =>
      show compareSegs (x :: xs) [] = -compareSegsNil (x :: xs)
      have h := compareSegsNil_neg (x :: xs)
      omega
    | cons y ys =>
      simp only [compareSegs]
      have h := cmpSeg_antisymm x y
      by_cases hc : cmpSeg x y = 0
      · have hc' : cmpSeg y x = 0 := by omega
        simp [hc, hc', ih ys]
      · have hc' : ¬cmpSeg y x = 0 := by omega
        simp [hc, hc', h]

/-- Padding distributes over cons. -/
theorem padTo_cons (n : Nat) (a : Seg) (l : List Seg) :
    padTo (n + 1) (a :: l) = a :: padTo n l := by
  simp [padTo, Nat.succ_sub_succ]

/-- The exhausted-left tail equals the spec's zero-padded element-wise walk. -/
theorem compareSegsNil_eq_padded (ys : List Seg) :
    compareSegsNil ys
      = firstNonZero (List.zipWith cmpSeg (List.replicate ys.length (Seg.num 0)) ys) := by
  induction ys with
  | nil => rfl
  | cons y ys ih =>
    simp only [compareSegsNil, List.length_cons, List.replicate_succ,
      List.zipWith_cons_cons, firstNonZero, ih]

/-- The exhausted-right case equals the spec's zero-padded element-wise walk. -/
theorem compareSegs_nil_eq_padded (xs : List Seg) :
    compareSegs xs []
      = firstNonZero (List.zipWith cmpSeg xs (List.replicate xs.length (Seg.num 0))) := by
  induction xs with
  | nil => rfl
  | cons x xs ih =>
    simp only [compareSegs, List.length_cons, List.replicate_succ,
      List.zipWith_cons_cons, firstNonZero, ih]

/-- The implemented comparison loop coincides with the spec's formulation:
pad both segment lists to equal length with numeric zeros and return the
first non-zero element-wise comparison. -/
theorem compareSegs_eq_padded (xs ys : List Seg) :
    compareSegs xs ys = specComparePadded xs ys := by
  induction xs generalizing ys with
  | nil =>
    simp only [specComparePadded, padTo, List.length_nil, Nat.zero_max,
      List.nil_append, Nat.sub_self, List.replicate, List.append_nil, Nat.sub_zero]
    exact compareSegsNil_eq_padded ys
  | cons x xs ih =>
    cases ys with
    | nil =>
      simp only [specComparePadded, padTo, List.length_nil, Nat.max_zero,
        List.nil_append, Nat.sub_self, List.replicate, List.append_nil, Nat.sub_zero]
      exact compareSegs_nil_eq_padded (x :: xs)
    | cons y ys =>
      have hmax : max (x :: xs).length (y :: ys).length = max xs.length ys.length + 1 := by
        simp only [List.length_cons]
        omega
      simp only [specComparePadded, hmax, padTo_cons, List.zipWith_cons_cons, firstNonZero]
      by_cases hc : cmpSeg x y = 0
      · simp [compareSegs, hc, ih ys, specComparePadded, padTo]
      · simp [compareSegs, hc]

/-!
## Claims C4 and C5: the version comparator
-/

/-- C4 counterexample: `_compare_versions` does not implement the claimed
algorithm.  The claim prescribes stripping only a LEADING `v`; the code
removes every `v` character, so on the input pair `("1.v2", "1.2")` the
code answers `equal` while the claimed algorithm answers `greater`. -/
theorem c4_counterexample :
    compare_versions (pyStr "1.v2") (pyStr "1.2") = 0 ∧
    specCompareLeadingV (pyStr "1.v2") (pyStr "1.2") = Ordering.gt ∧
    ordOfInt (compare_versions (pyStr "1.v2") (pyStr "1.2"))
      ≠ specCompareLeadingV (pyStr "1.v2") (pyStr "1.2") := by
  refine ⟨by decide, by decide, by decide⟩

/-- C4 (amended): `_compare_versions` follows the specified algorithm with
the `v` rule amended from "strip a leading `v`" to "remove every `v`
character": strip from the first `+`, then from the first `-`, remove all
`v`s, split on `.`, parse fully-numeric segments as integers, pad the
shorter list with numeric zeros, compare element-wise (numeric order for
numeric pairs, string order otherwise), first difference deciding; and
`compare("1.2.10", "1.2.9") = greater`. -/
theorem c4_compare_follows_amended_spec :
    (∀ a b : PyStr, ordOfInt (compare_versions a b) = specCompareAllV a b) ∧
    compare_versions (pyStr "1.2.10") (pyStr "1.2.9") = 1 := by
  constructor
  · intro a b
    show ordOfInt (compareSegs (versionSegs a) (versionSegs b)) = specCompareAllV a b
    rw [compareSegs_eq_padded]
    rfl
  · decide

/-- C5 counterexample: the version comparison is NOT transitive.  On the
version strings `"9"`, `"2x"`, `"10"` the mixed integer/string element
comparison yields `9 > "2x"` (string order), `"2x" > "10"` (string order),
yet `9 < 10` (numeric order). -/
theorem c5_counterexample :
    compare_versions (pyStr "9") (pyStr "2x") = 1 ∧
    compare_versions (pyStr "2x") (pyStr "10") = 1 ∧
    compare_versions (pyStr "9") (pyStr "10") = -1 := by
  refine ⟨by decide, by decide, by decide⟩

/-- C5 (amended): the version comparison is reflexive (`compare(a,a) =
equal`) and antisymmetric (`compare(a,b) = greater` iff `compare(b,a) =
less`), but not transitive (see the counterexample). -/
theorem c5_compare_refl_antisymm :
    (∀ a : PyStr, compare_versions a a = 0) ∧
    (∀ a b : PyStr, compare_versions a b = 1 ↔ compare_versions b a = -1) := by
  constructor
  · intro a
    exact compareSegs_self (versionSegs a)
  · intro a b
    have h := compareSegs_antisymm (versionSegs a) (versionSegs b)
    simp only [compare_versions]
    omega

/-!
## Claims C1 and C2: the cross-axis search
-/

/-- C1: when an engine candidate yields zero loader candidates, the search
terminates in failure immediately: with engine candidates `e2 :: e1 :: rest`
(all newer than the current version) and `e2` having no loader candidates,
the resolver returns no result, the loader registry is queried for `e2`
only, and in particular never for `e1`. -/
theorem c1_zero_loaders_hard_stop
    (loaderData : PyStr → Option (List LoaderItem))
    (checkFull : PyStr → PyStr → Bool × List (PyStr × ModDetail) × List PyStr)
    (m : Manifest) (mc e2 e1 : PyStr) (rest : List PyStr)
    (hcand : newerReleases mc m.versions = e2 :: e1 :: rest)
    (hzero : extractLoaderVersions ((loaderData e2).getD []) = [])
    (hne : e1 ≠ e2) :
    (find_compatible_updates loaderData checkFull (some m) mc).1 = none ∧
    (find_compatible_updates loaderData checkFull (some m) mc).2 = [e2] ∧
    e1 ∉ (find_compatible_updates loaderData checkFull (some m) mc).2 := by
  have hloop : find_compatible_updates loaderData checkFull (some m) mc = (none, [e2]) := by
    show engineLoop loaderData checkFull (newerReleases mc m.versions) = (none, [e2])
    rw [hcand]
    simp only [engineLoop]
    cases hld : loaderData e2 with
    | none => rfl
    | some ld =>
      have hextract : extractLoaderVersions ld = [] := by
        simpa [hld] using hzero
      by_cases hempty : ld.isEmpty
      · simp [hempty]
      · simp [hempty, hextract]
  rw [hloop]
  exact ⟨rfl, rfl, by simp [hne]⟩

/-- C1 witness: on a concrete manifest giving engine candidates
`["1.21.2", "1.21.1"]` where `1.21.2` has zero loader candidates, the
search fails having queried loaders for `1.21.2` only. -/
theorem c1_witness :
    (find_compatible_updates c1Loaders c1Check (some c1Manifest) (pyStr "1.21.0")).1 = none ∧
    (find_compatible_updates c1Loaders c1Check (some c1Manifest) (pyStr "1.21.0")).2
      = [pyStr "1.21.2"] ∧
    pyStr "1.21.1"
      ∉ (find_compatible_updates c1Loaders c1Check (some c1Manifest) (pyStr "1.21.0")).2 :=
  c1_zero_loaders_hard_stop c1Loaders c1Check c1Manifest (pyStr "1.21.0")
    (pyStr "1.21.2") (pyStr "1.21.1") [] (by decide) rfl (by decide)

/-- C2: for the engine candidate under test, when every mod fails to
resolve for the first loader candidate but all resolve for the second, the
resolver returns success with the second loader candidate: an incompatible
(engine, loader) pair only advances the loader loop. -/
theorem c2_unresolved_advances_loader_loop
    (loaderData : PyStr → Option (List LoaderItem))
    (checkFull : PyStr → PyStr → Bool × List (PyStr × ModDetail) × List PyStr)
    (m : Manifest) (mc engine l1 l2 : PyStr) (es ls : List PyStr)
    (ld : List LoaderItem)
    (hcand : newerReleases mc m.versions = engine :: es)
    (hld : loaderData engine = some ld)
    (hfv : extractLoaderVersions ld = l1 :: l2 :: ls)
    (h1 : (checkFull engine l1).1 = false)
    (h2 : (checkFull engine l2).1 = true) :
    (find_compatible_updates loaderData checkFull (some m) mc).1 =
      some ⟨engine, l2, (checkFull engine l2).2.1⟩ := by
  have hnonempty : ld.isEmpty = false := by
    cases ld with
    | nil => simp [extractLoaderVersions] at hfv
    | cons a as => rfl
  show (engineLoop loaderData checkFull (newerReleases mc m.versions)).1 = _
  rw [hcand]
  simp only [engineLoop, hld, hnonempty, hfv]
  simp only [tryLoaders, h1, h2, Bool.false_eq_true, if_false, if_true]
  simp

/-- C2 witness: on concrete fixtures where the newest loader candidate
`0.16.10` misses a mod and the older `0.16.9` resolves everything, the
resolver selects `(1.21.1, 0.16.9)`. -/
theorem c2_witness :
    (find_compatible_updates c2Loaders c2Check (some c2Manifest) (pyStr "1.21.0")).1 =
      some ⟨pyStr "1.21.1", pyStr "0.16.9",
        [(pyStr "sodium", ⟨pyStr "5.0", pyStr "https u", pyStr "AANobbMI"⟩)]⟩ :=
  c2_unresolved_advances_loader_loop c2Loaders c2Check c2Manifest (pyStr "1.21.0")
    (pyStr "1.21.1") (pyStr "0.16.10") (pyStr "0.16.9") [] [] _
    (by decide) rfl (by decide) (by decide) (by decide)

/-!
## Claim C3: all-or-nothing mod resolution
-/

/-- A successful loader-loop traversal returns the tested engine version,
a loader for which the compatibility check succeeded, and exactly that
check's mod details. -/
theorem tryLoaders_some
    (checkFull : PyStr → PyStr → Bool × List (PyStr × ModDetail) × List PyStr)
    (mc : PyStr) (fvs : List PyStr) (r : UpdateResult)
    (h : tryLoaders checkFull mc fvs = some r) :
    r.mc_new = mc ∧ (checkFull mc r.fabric_new).1 = true ∧
      r.mods = (checkFull mc r.fabric_new).2.1 := by
  induction fvs with
  | nil => simp [tryLoaders] at h
  | cons l rest ih =>
    simp only [tryLoaders] at h
    by_cases hc : (checkFull mc l).1 = true
    · rw [if_pos hc] at h
      obtain rfl := Option.some_inj.mp h
      exact ⟨rfl, hc, rfl⟩
    · rw [if_neg hc] at h
      exact ih h

/-- A result returned by the resolver comes from an (engine, loader) pair
whose compatibility check succeeded, and carries that check's details. -/
theorem find_compatible_updates_some
    (loaderData : PyStr → Option (List LoaderItem))
    (checkFull : PyStr → PyStr → Bool × List (PyStr × ModDetail) × List PyStr)
    (manifest : Option Manifest) (mc : PyStr) (r : UpdateResult)
    (h : (find_compatible_updates loaderData checkFull manifest mc).1 = some r) :
    (checkFull r.mc_new r.fabric_new).1 = true ∧
      r.mods = (checkFull r.mc_new r.fabric_new).2.1 := by
  cases manifest with
  | none => simp [find_compatible_updates] at h
  | some m =>
    have h' : (engineLoop loaderData checkFull (newerReleases mc m.versions)).1 = some r := h
    cases hcand : newerReleases mc m.versions with
    | nil => rw [hcand] at h'; simp [engineLoop] at h'
    | cons mc_ver rest =>
      rw [hcand] at h'
      simp only [engineLoop] at h'
      cases hld : loaderData mc_ver with
      | none => simp [hld] at h'
      | some ld =>
        simp only [hld] at h'
        by_cases hempty : ld.isEmpty = true
        · simp [hempty] at h'
        · rw [if_neg hempty] at h'
          by_cases hfv : (extractLoaderVersions ld).isEmpty = true
          · simp [hfv] at h'
          · rw [if_neg hfv] at h'
            cases htl : tryLoaders checkFull mc_ver (extractLoaderVersions ld) with
            | none => simp [htl] at h'
            | some r' =>
              simp only [htl] at h'
              obtain rfl : r' = r := by simpa using h'
              obtain ⟨hmc, hcomp, hmods⟩ := tryLoaders_some _ _ _ _ htl
              rw [← hmc] at hcomp hmods
              exact ⟨hcomp, hmods⟩

/-- A successful association-list lookup survives appending on the right. -/
theorem lookup_isSome_append {β : Type} (n : PyStr) (d e : List (PyStr × β))
    (h : (List.lookup n d).isSome = true) :
    (List.lookup n (d ++ e)).isSome = true := by
  induction d with
  | nil => simp [List.lookup] at h
  | cons p d ih =>
    obtain ⟨k, v⟩ := p
    simp only [List.cons_append, List.lookup] at h ⊢
    cases hk : n == k with
    | true => rfl
    | false =>
      rw [hk] at h
      exact ih h

/-- Looking up a key just appended to an association list succeeds. -/
theorem lookup_isSome_append_self {β : Type} (n : PyStr) (v : β)
    (d : List (PyStr × β)) :
    (List.lookup n (d ++ [(n, v)])).isSome = true := by
  induction d with
  | nil =>
    simp only [List.nil_append, List.lookup]
    cases hk : n == n with
    | true => rfl
    | false => simp at hk
  | cons p d ih =>
    obtain ⟨k, w⟩ := p
    simp only [List.cons_append, List.lookup]
    cases hk : n == k with
    | true => rfl
    | false => exact ih

/-- One `check_full_compatibility` loop step only appends to the details
and missing lists, hence preserves coverage of a mod name. -/
theorem cfcStep_preserves (reg : Registry) (mc : PyStr)
    (acc : List (PyStr × ModDetail) × List PyStr) (mod : ModCfgU) (n : PyStr)
    (h : (List.lookup n acc.1).isSome = true ∨ n ∈ acc.2) :
    (List.lookup n (cfcStep reg mc acc mod).1).isSome = true ∨
      n ∈ (cfcStep reg mc acc mod).2 := by
  unfold cfcStep
  repeat' split
  all_goals
    rcases h with h | h
  all_goals
    first
      | exact Or.inl h
      | exact Or.inl (lookup_isSome_append _ _ _ h)
      | exact Or.inr h
      | exact Or.inr (List.mem_append_left _ h)

/-- Folding further loop steps preserves coverage of a mod name. -/
theorem cfcFold_preserves (reg : Registry) (mc : PyStr) (mods : List ModCfgU)
    (acc : List (PyStr × ModDetail) × List PyStr) (n : PyStr)
    (h : (List.lookup n acc.1).isSome = true ∨ n ∈ acc.2) :
    (List.lookup n (mods.foldl (cfcStep reg mc) acc).1).isSome = true ∨
      n ∈ (mods.foldl (cfcStep reg mc) acc).2 := by
  induction mods generalizing acc with
  | nil => exact h
  | cons mod mods ih => exact ih _ (cfcStep_preserves reg mc acc mod n h)

/-- Processing a mod with a truthy name records that name: either a detail
entry is appended or the name is appended to the missing list. -/
theorem cfcStep_inserts (reg : Registry) (mc : PyStr)
    (acc : List (PyStr × ModDetail) × List PyStr) (mod : ModCfgU) (n : PyStr)
    (hname : mod.name = some n) (hne : n.isEmpty = false) :
    (List.lookup n (cfcStep reg mc acc mod).1).isSome = true ∨
      n ∈ (cfcStep reg mc acc mod).2 := by
  unfold cfcStep
  simp only [hname]
  rw [if_neg (by simp [hne])]
  repeat' split
  all_goals
    first
      | exact Or.inr (List.mem_append_right _ (by simp))
      | exact Or.inl (lookup_isSome_append_self _ _ _)

/-- Folding the loop over a list containing a mod with a truthy name
records that name in the details map or the missing list. -/
theorem cfcFold_covers (reg : Registry) (mc : PyStr) (mods : List ModCfgU)
    (acc : List (PyStr × ModDetail) × List PyStr)
    (mod : ModCfgU) (hmem : mod ∈ mods) (n : PyStr)
    (hname : mod.name = some n) (hne : n.isEmpty = false) :
    (List.lookup n (mods.foldl (cfcStep reg mc) acc).1).isSome = true ∨
      n ∈ (mods.foldl (cfcStep reg mc) acc).2 := by
  induction mods generalizing acc with
  | nil => cases hmem
  | cons x xs ih =>
    simp only [List.foldl_cons]
    rcases List.mem_cons.mp hmem with rfl | hmem'
    · exact cfcFold_preserves reg mc xs _ n (cfcStep_inserts reg mc acc mod n hname hne)
    · exact ih _ hmem'

/-- Every configured mod with a truthy name ends up either in the details
map or in the missing list of `check_full_compatibility`. -/
theorem cfc_covers (reg : Registry) (mods : List ModCfgU) (mc fv : PyStr)
    (mod : ModCfgU) (hmem : mod ∈ mods) (n : PyStr)
    (hname : mod.name = some n) (hne : n.isEmpty = false) :
    (List.lookup n (check_full_compatibility reg mods mc fv).2.1).isSome = true ∨
      n ∈ (check_full_compatibility reg mods mc fv).2.2 := by
  show (List.lookup n (mods.foldl (cfcStep reg mc) ([], [])).1).isSome = true ∨
    n ∈ (mods.foldl (cfcStep reg mc) ([], [])).2
  exact cfcFold_covers reg mc mods ([], []) mod hmem n hname hne

/-- C3: the resolver returns a result only from an (engine, loader) pair
for which every configured mod resolved: the compatibility check of the
returned pair succeeded with an empty missing list, the result carries
exactly that check's details, and every configured mod with a truthy name
has a resolution in the returned details (all-or-nothing: one missing mod
makes the check report incompatible, so no partial result is returned). -/
theorem c3_result_iff_all_mods_resolved
    (reg : Registry) (mods : List ModCfgU)
    (loaderData : PyStr → Option (List LoaderItem))
    (manifest : Option Manifest) (mc : PyStr) (r : UpdateResult)
    (hres : (find_compatible_updates loaderData
        (check_full_compatibility reg mods) manifest mc).1 = some r) :
    (check_full_compatibility reg mods r.mc_new r.fabric_new).1 = true ∧
    (check_full_compatibility reg mods r.mc_new r.fabric_new).2.2 = [] ∧
    r.mods = (check_full_compatibility reg mods r.mc_new r.fabric_new).2.1 ∧
    (∀ mod ∈ mods, ∀ n : PyStr, mod.name = some n → n.isEmpty = false →
      (List.lookup n r.mods).isSome = true) := by
  obtain ⟨hcomp, hmods⟩ := find_compatible_updates_some _ _ _ _ _ hres
  have hmiss : (check_full_compatibility reg mods r.mc_new r.fabric_new).2.2 = [] := by
    have hdef : (check_full_compatibility reg mods r.mc_new r.fabric_new).1
        = (check_full_compatibility reg mods r.mc_new r.fabric_new).2.2.isEmpty := rfl
    rw [hdef] at hcomp
    simpa using hcomp
  refine ⟨hcomp, hmiss, hmods, ?_⟩
  intro mod hmem n hname hne
  rw [hmods]
  rcases cfc_covers reg mods r.mc_new r.fabric_new mod hmem n hname hne with h | h
  · exact h
  · rw [hmiss] at h
    cases h

/-- C3 witness: on concrete fixtures with one configured mod `sodium`, the
resolver returns a result whose details resolve `sodium`, coming from a
compatibility check with an empty missing list. -/
theorem c3_witness :
    (check_full_compatibility c3Reg c3Mods c3Result.mc_new c3Result.fabric_new).1 = true ∧
    (check_full_compatibility c3Reg c3Mods c3Result.mc_new c3Result.fabric_new).2.2 = [] ∧
    c3Result.mods
      = (check_full_compatibility c3Reg c3Mods c3Result.mc_new c3Result.fabric_new).2.1 ∧
    (List.lookup (pyStr "sodium") c3Result.mods).isSome = true := by
  have h := c3_result_iff_all_mods_resolved c3Reg c3Mods c3Loaders (some c3Manifest)
    (pyStr "1.21.0") c3Result (by decide)
  exact ⟨h.1, h.2.1, h.2.2.1,
    h.2.2.2 ⟨some (pyStr "sodium")⟩ (by decide) (pyStr "sodium") rfl (by decide)⟩

/-!
## Claim C6: fetch outcome taxonomy
-/

/-- C6 counterexample: the claim that callers can distinguish the 404
"not found" outcome from other transport failures is false.  `_fetch_json`
returns `None` for a 404, for a 500, and for a timeout alike, so the value
seen by every caller is identical in all three failure cases (the printed
diagnostics differ, but the returned outcome does not). -/
theorem c6_counterexample :
    (fetch_json Nat (pyStr "u") (.httpError 404)).1 = none ∧
    (fetch_json Nat (pyStr "u") (.httpError 500)).1 = none ∧
    (fetch_json Nat (pyStr "u") (.failure (pyStr "timed out"))).1 = none ∧
    (fetch_json Nat (pyStr "u") (.httpError 404)).1
      = (fetch_json Nat (pyStr "u") (.httpError 500)).1 ∧
    (fetch_json Nat (pyStr "u") (.httpError 404)).1
      = (fetch_json Nat (pyStr "u") (.failure (pyStr "timed out"))).1 := by
  refine ⟨by decide, by decide, by decide, by decide, by decide⟩

/-- C6 (amended): every fetch failure returns the same `None` value, so
callers cannot distinguish a 404 from other transport or protocol failures
by the fetch result; the outcomes differ only in the printed diagnostics
(a 404 prints nothing, any other failure prints an error line), and no
failure raises an unstructured error. -/
theorem c6_fetch_failures_all_return_none (α : Type) (code : Nat) (url msg : PyStr)
    (hc : code ≠ 404) :
    fetch_json α url (.httpError 404) = (none, []) ∧
    (fetch_json α url (.httpError code)).1 = none ∧
    (fetch_json α url (.httpError code)).2 ≠ [] ∧
    (fetch_json α url (.failure msg)).1 = none ∧
    (fetch_json α url (.failure msg)).2 ≠ [] := by
  refine ⟨by simp [fetch_json], ?_, ?_, by simp [fetch_json], by simp [fetch_json]⟩
  · simp [fetch_json, hc]
  · simp [fetch_json, hc]

/-- C6 witness: the amended statement at a concrete 500 response. -/
theorem c6_witness :
    fetch_json Nat (pyStr "u") (.httpError 404) = (none, []) ∧
    (fetch_json Nat (pyStr "u") (.httpError 500)).1 = none ∧
    (fetch_json Nat (pyStr "u") (.httpError 500)).2 ≠ [] ∧
    (fetch_json Nat (pyStr "u") (.failure (pyStr "timed out"))).1 = none ∧
    (fetch_json Nat (pyStr "u") (.failure (pyStr "timed out"))).2 ≠ [] :=
  c6_fetch_failures_all_return_none Nat 500 (pyStr "u") (pyStr "timed out") (by decide)

/-!
## Claim C7: exists-skip behaviour of the download loop
-/

/-- C7 counterexample: the claim that an entry whose destination already
exists is skipped fails for mod entries.  On a filesystem where both
destinations of the mod entry exist, `download_all` removes the existing
files (slug recorded) and downloads again; no skip occurs. -/
theorem c7_counterexample :
    c7Fs.fileExists (pyStr "mods/sodium.jar") = true ∧
    processItem c7Fs c7ModItem = Except.ok
      ([FsAction.removeOld (pyStr "mods/sodium.jar"),
        FsAction.removeOld (pyStr "mods/client/sodium.jar"),
        FsAction.download (pyStr "https u") (pyStr "mods/sodium.jar"),
        FsAction.copy (pyStr "mods/sodium.jar") (pyStr "mods/client/sodium.jar")], true) ∧
    FsAction.download (pyStr "https u") (pyStr "mods/sodium.jar")
      ∈ itemActions (processItem c7Fs c7ModItem) ∧
    FsAction.removeOld (pyStr "mods/sodium.jar")
      ∈ itemActions (processItem c7Fs c7ModItem) ∧
    FsAction.skipExists (pyStr "mods/sodium.jar")
      ∉ itemActions (processItem c7Fs c7ModItem) := by
  refine ⟨by decide, by rfl, by decide, by decide, by decide⟩

/-- C7 (amended): only non-mod entries (engine and loader) are treated as
satisfied when their destination exists: they are skipped without
re-verification.  Mod entries are never skipped: the artifact is downloaded
again (and, when a slug is recorded, existing destination files are removed
first, as the counterexample shows). -/
theorem c7_exists_skip_only_nonmod (fs : FsEnv) (item mitem : PlanItem)
    (d first : PyStr) (rest : List PyStr)
    (hnm : ¬(item.type = pyStr "mod" ∧ item.destinations.isSome = true))
    (hdest : item.destination = some d) (hne : d.isEmpty = false)
    (hex : fs.fileExists d = true)
    (hmtype : mitem.type = pyStr "mod")
    (hmdest : mitem.destinations = some (first :: rest)) :
    processItem fs item = Except.ok ([FsAction.skipExists d], true) ∧
    FsAction.download mitem.url first ∈ itemActions (processItem fs mitem) ∧
    FsAction.skipExists first ∉ itemActions (processItem fs mitem) := by
  constructor
  · unfold processItem
    rw [if_neg hnm]
    simp only [hdest]
    rw [if_neg (by simp [hne]), if_pos hex]
  · have hcond : mitem.type = pyStr "mod" ∧ mitem.destinations.isSome = true :=
      ⟨hmtype, by simp [hmdest]⟩
    unfold processItem
    rw [if_pos hcond]
    simp only [hmdest, Option.getD_some]
    cases hslug : mitem.slug with
    | none =>
      by_cases hdl : fs.downloadOk mitem.url first = true <;>
        exact ⟨by simp [itemActions, hdl], by simp [itemActions, hdl, List.mem_map]⟩
    | some s =>
      by_cases hs : s.isEmpty = true <;>
        by_cases hdl : fs.downloadOk mitem.url first = true <;>
          exact ⟨by simp [itemActions, hs, hdl],
            by simp [itemActions, hs, hdl, List.mem_map]⟩

/-- C7 witness: on a filesystem where everything exists, the engine entry
is skipped while the mod entry is downloaded again. -/
theorem c7_witness :
    processItem c7Fs c7EngineItem = Except.ok ([FsAction.skipExists (pyStr "./server.jar")], true) ∧
    FsAction.download c7ModItem.url (pyStr "mods/sodium.jar")
      ∈ itemActions (processItem c7Fs c7ModItem) ∧
    FsAction.skipExists (pyStr "mods/sodium.jar")
      ∉ itemActions (processItem c7Fs c7ModItem) :=
  c7_exists_skip_only_nonmod c7Fs c7EngineItem c7ModItem (pyStr "./server.jar")
    (pyStr "mods/sodium.jar") [pyStr "mods/client/sodium.jar"]
    (by decide) rfl (by decide) rfl rfl rfl

/-!
## Claim C8: failed downloads leave no partial file
-/

/-- C8: whenever `_download_file` fails (any exception, before or after the
destination file was created), it returns failure and the destination path
does not exist afterwards: no truncated artifact remains that a later
exists-check would treat as complete. -/
theorem c8_failed_download_removes_partial
    (t : TransferOutcome) (fs : PyStr → Bool) (dest : PyStr)
    (h : t ≠ TransferOutcome.ok) :
    (download_file t fs dest).1 = false ∧ (download_file t fs dest).2 dest = false := by
  cases t with
  | ok => exact absurd rfl h
  | failAfterWrite => exact ⟨rfl, by simp [download_file]⟩
  | failBeforeWrite =>
    refine ⟨rfl, ?_⟩
    by_cases hd : fs dest = true
    · simp [download_file, hd]
    · simp [download_file, hd]

/-- C8 witness: a concrete failing transfer after the file was created
returns failure with the destination absent. -/
theorem c8_witness :
    (download_file TransferOutcome.failAfterWrite c8Fs (pyStr "mods/sodium.jar")).1 = false ∧
    (download_file TransferOutcome.failAfterWrite c8Fs (pyStr "mods/sodium.jar")).2
      (pyStr "mods/sodium.jar") = false :=
  c8_failed_download_removes_partial TransferOutcome.failAfterWrite c8Fs
    (pyStr "mods/sodium.jar") (by decide)

/-!
## Claims C9 and C10: download plan destinations
-/

/-- Every plan entry that `build_download_list` produces for a mod is the
canonical record built by `mkModItem`. -/
theorem buildModEntry_some (env : ModResolveEnv) (tgt : PyStr → PyStr)
    (mod : ModConfig) (item : PlanItem)
    (h : buildModEntry env tgt mod = some item) :
    ∃ version url filename resolved_slug,
      item = mkModItem tgt mod version url filename resolved_slug := by
  unfold buildModEntry at h
  cases hv : mod.version with
  | none => rw [hv] at h; cases h
  | some version =>
    simp only [hv] at h
    by_cases he : version.isEmpty = true
    · rw [if_pos he] at h; cases h
    · rw [if_neg he] at h
      cases hr : buildResolve env mod version with
      | none => rw [hr] at h; cases h
      | some trip =>
        obtain ⟨url, filename, rslug⟩ := trip
        simp only [hr] at h
        exact ⟨version, url, filename, rslug, (Option.some_inj.mp h).symm⟩

/-- Destination expansion for `environment = both`: server path then client
subdirectory path. -/
theorem modDestinations_both (b f : PyStr) :
    modDestinations b f (pyStr "both")
      = [pathJoin b f, pathJoin (pathJoin b (pyStr "client")) f] := by
  unfold modDestinations
  rw [if_pos (Or.inr rfl), if_pos (Or.inr rfl)]
  rfl

/-- Destination expansion for `environment = server`. -/
theorem modDestinations_server (b f : PyStr) :
    modDestinations b f (pyStr "server") = [pathJoin b f] := by
  unfold modDestinations
  rw [if_pos (Or.inl rfl), if_neg (by decide)]
  rfl

/-- Destination expansion for `environment = client`. -/
theorem modDestinations_client (b f : PyStr) :
    modDestinations b f (pyStr "client")
      = [pathJoin (pathJoin b (pyStr "client")) f] := by
  unfold modDestinations
  rw [if_neg (by decide), if_pos (Or.inl rfl)]
  rfl

/-- Destination expansion for any unrecognized environment value: empty. -/
theorem modDestinations_other (b f e : PyStr)
    (h1 : e ≠ pyStr "server") (h2 : e ≠ pyStr "both") (h3 : e ≠ pyStr "client") :
    modDestinations b f e = [] := by
  unfold modDestinations
  rw [if_neg (by simp [h1, h2]), if_neg (by simp [h3, h2])]
  rfl

/-- C9: a plan entry built for a mod with `environment = both` has exactly
two destinations, the server path followed by the client subdirectory path;
an entry with `environment = client` or `environment = server` has exactly
one destination. -/
theorem c9_destination_counts (env : ModResolveEnv) (tgt : PyStr → PyStr)
    (mod : ModConfig) (item : PlanItem)
    (h : buildModEntry env tgt mod = some item) :
    (item.environment = some (pyStr "both") →
      item.destinations = some [pathJoin item.target_dir item.filename,
        pathJoin (pathJoin item.target_dir (pyStr "client")) item.filename] ∧
      (item.destinations.getD []).length = 2) ∧
    ((item.environment = some (pyStr "client") ∨ item.environment = some (pyStr "server")) →
      (item.destinations.getD []).length = 1) := by
  obtain ⟨version, url, filename, rslug, rfl⟩ := buildModEntry_some env tgt mod item h
  constructor
  · intro henv
    have he : mod.environment.getD (pyStr "both") = pyStr "both" := by
      simpa [mkModItem] using henv
    simp only [mkModItem, he]
    rw [modDestinations_both]
    simp
  · intro henv
    rcases henv with henv | henv
    · have he : mod.environment.getD (pyStr "both") = pyStr "client" := by
        simpa [mkModItem] using henv
      simp only [mkModItem, he]
      rw [modDestinations_client]
      simp
    · have he : mod.environment.getD (pyStr "both") = pyStr "server" := by
        simpa [mkModItem] using henv
      simp only [mkModItem, he]
      rw [modDestinations_server]
      simp

/-- C9 witness: the concrete plan entry built for `c9Mod` (environment
`both`) has exactly the two expected destinations. -/
theorem c9_witness :
    c9Item.destinations = some [pathJoin c9Item.target_dir c9Item.filename,
      pathJoin (pathJoin c9Item.target_dir (pyStr "client")) c9Item.filename] ∧
    (c9Item.destinations.getD []).length = 2 :=
  (c9_destination_counts c9Env c9Tgt c9Mod c9Item rfl).1 (by decide)

/-- C10: for every mod plan entry, a missing environment field defaults to
`both`; the destinations list is non-empty exactly when the environment is
one of `client`, `server`, `both`; processing an entry whose destinations
list is empty hits the unguarded `destinations[0]` access (an IndexError);
and consequently a successfully processed mod entry always has a
recognized environment. -/
theorem c10_unrecognized_environment_crashes (env : ModResolveEnv)
    (tgt : PyStr → PyStr) (mod : ModConfig) (item : PlanItem) (fs : FsEnv)
    (h : buildModEntry env tgt mod = some item) :
    (mod.environment = none → item.environment = some (pyStr "both")) ∧
    (¬(item.destinations.getD []).isEmpty = true ↔
      (item.environment = some (pyStr "client") ∨ item.environment = some (pyStr "server") ∨
       item.environment = some (pyStr "both"))) ∧
    ((item.destinations.getD []).isEmpty = true →
      processItem fs item = Except.error (pyStr "IndexError: list index out of range")) ∧
    (∀ out, processItem fs item = Except.ok out →
      (item.environment = some (pyStr "client") ∨ item.environment = some (pyStr "server") ∨
       item.environment = some (pyStr "both"))) := by
  obtain ⟨version, url, filename, rslug, rfl⟩ := buildModEntry_some env tgt mod item h
  have hdefault : (mod.environment = none →
      (mkModItem tgt mod version url filename rslug).environment = some (pyStr "both")) := by
    intro h0
    simp [mkModItem, h0]
  have hiff : ¬((mkModItem tgt mod version url filename rslug).destinations.getD []).isEmpty = true ↔
      ((mkModItem tgt mod version url filename rslug).environment = some (pyStr "client") ∨
       (mkModItem tgt mod version url filename rslug).environment = some (pyStr "server") ∨
       (mkModItem tgt mod version url filename rslug).environment = some (pyStr "both")) := by
    simp only [mkModItem, Option.getD_some, Option.some_inj]
    by_cases hc : mod.environment.getD (pyStr "both") = pyStr "client"
    · rw [hc, modDestinations_client]
      simp [hc]
    · by_cases hs : mod.environment.getD (pyStr "both") = pyStr "server"
      · rw [hs, modDestinations_server]
        simp [hs]
      · by_cases hb : mod.environment.getD (pyStr "both") = pyStr "both"
        · rw [hb, modDestinations_both]
          simp [hb]
        · rw [modDestinations_other _ _ _ hs hb hc]
          simp [hc, hs, hb]
  have hcrash : ((mkModItem tgt mod version url filename rslug).destinations.getD []).isEmpty = true →
      processItem fs (mkModItem tgt mod version url filename rslug)
        = Except.error (pyStr "IndexError: list index out of range") := by
    intro hempty
    have hds : modDestinations (tgt (mod.source.getD (pyStr "modrinth"))) filename
        (mod.environment.getD (pyStr "both")) = [] := by
      have : ((mkModItem tgt mod version url filename rslug).destinations.getD []).isEmpty = true :=
        hempty
      simpa [mkModItem] using this
    unfold processItem
    rw [if_pos (by simp [mkModItem])]
    simp only [mkModItem, Option.getD_some, hds]
  refine ⟨hdefault, hiff, hcrash, ?_⟩
  intro out hok
  by_contra hnrec
  have hempty : ((mkModItem tgt mod version url filename rslug).destinations.getD []).isEmpty = true := by
    by_contra hne
    exact hnrec (hiff.mp hne)
  rw [hcrash hempty] at hok
  cases hok

/-- C10 witness: the concrete entry built from `c10Mod` (environment
`weird`) has an empty destinations list and processing it yields the
IndexError outcome. -/
theorem c10_witness :
    processItem c10Fs c10Item = Except.error (pyStr "IndexError: list index out of range") :=
  (c10_unrecognized_environment_crashes c9Env c9Tgt c10Mod c10Item c10Fs rfl).2.2.1 (by decide)
